import Mathlib

/-!
Shallow embedding of the qaapi service (src/testing.go): a Q&A CRUD HTTP
service over a relational store.  The store is modelled as explicit state
(lists of rows plus auto-increment counters), GORM calls as pure functions
on that state, and each HTTP handler as a function from the request data
and the store to the new store and a response.  A `fault : Bool` argument
on each database primitive models an unexpected storage failure
(connection or query error) on that call; `fault = false` is a normal run.
-/

namespace QAApi

/- ### Go string primitives used by the handlers -/

/-- One step of Go `strings.Split(s, "/")` over the character list. -/
def splitChars (sep : Char) : List Char → List (List Char)
  | [] => [[]]
  | c :: cs =>
    if c = sep then [] :: splitChars sep cs
    else
      match splitChars sep cs with
      | [] => [[c]]
      | h :: t => (c :: h) :: t

/-- Go `strings.Split(path, "/")`. -/
def goSplitSlash (s : String) : List String :=
  (splitChars '/' s.data).map String.mk

/-- Go `strings.TrimPrefix(s, p)`: drop the leading occurrence of `p`
when present, otherwise return `s` unchanged. -/
def trimPfx (s p : String) : String :=
  if p.data.isPrefixOf s.data then String.mk (s.data.drop p.data.length) else s

/-- Go `strings.HasSuffix(s, suf)`. -/
def goHasSuffix (s suf : String) : Bool :=
  suf.data.isSuffixOf s.data

/-- Digit run for `strconv.Atoi`: all characters must be decimal digits
and at least one must be present. -/
def parseNatDigits (cs : List Char) : Option Nat :=
  if cs = [] then none
  else
    cs.foldl
      (fun acc c =>
        match acc with
        | none => none
        | some a => if c.isDigit then some (a * 10 + (c.toNat - 48)) else none)
      (some 0)

/-- Go `strconv.Atoi`: optional sign, a nonempty digit run, and the value
must fit in a 64-bit signed integer. -/
def goAtoi (s : String) : Option Int :=
  let step : Bool × List Char :=
    match s.data with
    | '+' :: rest => (false, rest)
    | '-' :: rest => (true, rest)
    | cs => (false, cs)
  match parseNatDigits step.2 with
  | none => none
  | some n =>
    if step.1 then
      if n ≤ 2 ^ 63 then some (-(n : Int)) else none
    else
      if n ≤ 2 ^ 63 - 1 then some (n : Int) else none

/- ### Data model (the two GORM models) -/

/-- Row of the `answers` table (Go struct `Answer`). -/
structure Answer where
  ID : Int
  QuestionID : Int
  UserID : String
  Text : String
  CreatedAt : Nat
  deriving DecidableEq, Repr

/-- Go struct `Question`.  The `Answers` field is the GORM has-many
association: it is not a column of the `questions` table, so plain reads
leave it empty and only `Preload` fills it. -/
structure Question where
  ID : Int
  Text : String
  CreatedAt : Nat
  Answers : List Answer
  deriving DecidableEq, Repr

/-- Error type of the storage layer: GORM's `ErrRecordNotFound` versus any
other (connection/query) failure. -/
inductive DBErr where
  | recordNotFound
  | storage
  deriving DecidableEq, Repr

/-- The relational store: the two tables plus their auto-increment
sequences (Postgres sequences start at 1). -/
structure Store where
  questions : List Question
  answers : List Answer
  nextQID : Int
  nextAID : Int
  deriving DecidableEq, Repr

/-- The freshly migrated empty database. -/
def emptyStore : Store := ⟨[], [], 1, 1⟩

/- ### Repository layer -/

/-- `DB.First(&q, id)` on the `questions` table: the unique row whose
primary key equals `id`, if any. -/
def firstQuestion (s : Store) (id : Int) : Option Question :=
  s.questions.find? (fun q => q.ID == id)

/-- `DB.First(&a, id)` on the `answers` table. -/
def firstAnswer (s : Store) (id : Int) : Option Answer :=
  s.answers.find? (fun a => a.ID == id)

/-- `CreateQuestion`: `DB.Create(q)` fills the generated primary key and
the `autoCreateTime` timestamp and inserts the row. -/
def CreateQuestion (s : Store) (q : Question) (now : Nat) (fault : Bool) :
    Except DBErr Question × Store :=
  if fault then (.error .storage, s)
  else
    let q' : Question := { q with ID := s.nextQID, CreatedAt := now }
    (.ok q',
      { s with questions := s.questions ++ [q'], nextQID := s.nextQID + 1 })

/-- `GetAllQuestions`: `DB.Find(&qs)` reads every row of the `questions`
table; the association field is not loaded, so it comes back empty. -/
def GetAllQuestions (s : Store) (fault : Bool) :
    Except DBErr (List Question) :=
  if fault then .error .storage
  else .ok (s.questions.map (fun q => { q with Answers := [] }))

/-- `GetQuestionWithAnswers`: `DB.Preload("Answers").First(&q, id)`. -/
def GetQuestionWithAnswers (s : Store) (id : Int) (fault : Bool) :
    Except DBErr Question :=
  if fault then .error .storage
  else
    match firstQuestion s id with
    | none => .error .recordNotFound
    | some q =>
        .ok { q with Answers := s.answers.filter (fun a => a.QuestionID == id) }

/-- `DeleteQuestion`: `DB.Delete(&Question{}, id)`, with the
`OnDelete:CASCADE` constraint removing the question's answers at the
database level; the repository signals not-found when `RowsAffected`
is zero.  On a failed query `RowsAffected` is zero as well, so the
`RowsAffected == 0` check fires before `res.Error` is ever read. -/
def DeleteQuestion (s : Store) (id : Int) (fault : Bool) :
    Except DBErr Unit × Store :=
  if fault then (.error .recordNotFound, s)
  else
    let affected := s.questions.countP (fun q => q.ID == id)
    if affected = 0 then (.error .recordNotFound, s)
    else
      (.ok (),
        { s with
          questions := s.questions.filter (fun q => q.ID != id),
          answers := s.answers.filter (fun a => a.QuestionID != id) })

/-- `CreateAnswer`: a `DB.First` existence read of the referenced question
precedes the `DB.Create` insert; each of the two calls can fail on its
own (`f1` for the read, `f2` for the insert). -/
def CreateAnswer (s : Store) (a : Answer) (now : Nat) (f1 f2 : Bool) :
    Except DBErr Answer × Store :=
  if f1 then (.error .storage, s)
  else
    match firstQuestion s a.QuestionID with
    | none => (.error .recordNotFound, s)
    | some _ =>
      if f2 then (.error .storage, s)
      else
        let a' : Answer := { a with ID := s.nextAID, CreatedAt := now }
        (.ok a',
          { s with answers := s.answers ++ [a'], nextAID := s.nextAID + 1 })

/-- `GetAnswer`: `DB.First(&a, id)`. -/
def GetAnswer (s : Store) (id : Int) (fault : Bool) : Except DBErr Answer :=
  if fault then .error .storage
  else
    match firstAnswer s id with
    | none => .error .recordNotFound
    | some a => .ok a

/-- `DeleteAnswer`: `DB.Delete(&Answer{}, id)`; not-found exactly when
`RowsAffected` is zero, as for questions. -/
def DeleteAnswer (s : Store) (id : Int) (fault : Bool) :
    Except DBErr Unit × Store :=
  if fault then (.error .recordNotFound, s)
  else
    let affected := s.answers.countP (fun a => a.ID == id)
    if affected = 0 then (.error .recordNotFound, s)
    else
      (.ok (), { s with answers := s.answers.filter (fun a => a.ID != id) })

/- ### Request bodies and JSON decoding -/

/-- The JSON object fields a request body may carry, each optional; a
field absent from the target Go struct is simply ignored by
`encoding/json`, and a missing field leaves the Go zero value. -/
structure JsonFields where
  id : Option Int := none
  created_at : Option Nat := none
  text : Option String := none
  user_id : Option String := none
  deriving DecidableEq, Repr

/-- A request body: either malformed JSON (decode error) or an object. -/
inductive ReqBody where
  | malformed
  | obj (fields : JsonFields)
  deriving DecidableEq, Repr

/-- Decode target of `CreateQuestionHandler`: `struct { Text string }`. -/
structure CreateQuestionReq where
  Text : String
  deriving DecidableEq, Repr

/-- Decode target of `CreateAnswerHandler`:
`struct { UserID string; Text string }`. -/
structure CreateAnswerReq where
  UserID : String
  Text : String
  deriving DecidableEq, Repr

/-- `json.NewDecoder(r.Body).Decode(&req)` for the question body: only the
`text` key is read, every other key is dropped. -/
def decodeCreateQuestionReq : ReqBody → Option CreateQuestionReq
  | .malformed => none
  | .obj f => some ⟨f.text.getD ""⟩

/-- `json.NewDecoder(r.Body).Decode(&req)` for the answer body: only the
`user_id` and `text` keys are read. -/
def decodeCreateAnswerReq : ReqBody → Option CreateAnswerReq
  | .malformed => none
  | .obj f => some ⟨f.user_id.getD "", f.text.getD ""⟩

/- ### HTTP responses -/

/-- JSON payload written by a handler. -/
inductive RespBody where
  | empty
  | msg (s : String)
  | jsonQuestion (q : Question)
  | jsonQuestions (qs : List Question)
  | jsonAnswer (a : Answer)
  deriving DecidableEq, Repr

/-- An HTTP response: status code and body. -/
structure Response where
  status : Nat
  body : RespBody
  deriving DecidableEq, Repr

/- ### HTTP handlers -/

/-- `CreateQuestionHandler`: decode `{text}`, build a zero-valued
`Question` with that text, insert it, return 201 with the stored row. -/
def CreateQuestionHandler (s : Store) (body : ReqBody) (now : Nat)
    (fault : Bool) : Store × Response :=
  match decodeCreateQuestionReq body with
  | none => (s, ⟨400, .msg "bad request"⟩)
  | some req =>
    let q : Question := ⟨0, req.Text, 0, []⟩
    match CreateQuestion s q now fault with
    | (.error _, s') => (s', ⟨500, .msg "internal"⟩)
    | (.ok q', s') => (s', ⟨201, .jsonQuestion q'⟩)

/-- `GetAllQuestionsHandler`: list every question, 500 on storage error. -/
def GetAllQuestionsHandler (s : Store) (fault : Bool) : Store × Response :=
  match GetAllQuestions s fault with
  | .error _ => (s, ⟨500, .msg "internal"⟩)
  | .ok qs => (s, ⟨200, .jsonQuestions qs⟩)

/-- `GetQuestionHandler`: trim `/questions/`, `Atoi` the rest (400 on
failure), fetch with answers, 404 on any repository error. -/
def GetQuestionHandler (s : Store) (path : String) (fault : Bool) :
    Store × Response :=
  let idStr := trimPfx path "/questions/"
  match goAtoi idStr with
  | none => (s, ⟨400, .msg "bad id"⟩)
  | some id =>
    match GetQuestionWithAnswers s id fault with
    | .error _ => (s, ⟨404, .msg "not found"⟩)
    | .ok q => (s, ⟨200, .jsonQuestion q⟩)

/-- `DeleteQuestionHandler`: parse the id (400 on failure), delete, 404 on
any repository error, 204 with empty body on success. -/
def DeleteQuestionHandler (s : Store) (path : String) (fault : Bool) :
    Store × Response :=
  let idStr := trimPfx path "/questions/"
  match goAtoi idStr with
  | none => (s, ⟨400, .msg "bad id"⟩)
  | some id =>
    match DeleteQuestion s id fault with
    | (.error _, s') => (s', ⟨404, .msg "not found"⟩)
    | (.ok _, s') => (s', ⟨204, .empty⟩)

/-- `CreateAnswerHandler`: split the trimmed path, require a second
segment equal to `answers`, parse the first segment as the question id,
decode `{user_id, text}`, insert; any `CreateAnswer` error maps to 400. -/
def CreateAnswerHandler (s : Store) (path : String) (body : ReqBody)
    (now : Nat) (f1 f2 : Bool) : Store × Response :=
  let p := trimPfx path "/questions/"
  let parts := goSplitSlash p
  if parts.length < 2 then (s, ⟨400, .msg "bad path"⟩)
  else if parts.getD 1 "" ≠ "answers" then (s, ⟨400, .msg "bad path"⟩)
  else
    match goAtoi (parts.getD 0 "") with
    | none => (s, ⟨400, .msg "bad id"⟩)
    | some id =>
      match decodeCreateAnswerReq body with
      | none => (s, ⟨400, .msg "bad request"⟩)
      | some req =>
        let a : Answer := ⟨0, id, req.UserID, req.Text, 0⟩
        match CreateAnswer s a now f1 f2 with
        | (.error _, s') => (s', ⟨400, .msg "question not found"⟩)
        | (.ok a', s') => (s', ⟨201, .jsonAnswer a'⟩)

/-- `GetAnswerHandler`: parse the id (400 on failure), 404 on any
repository error, 200 with the answer otherwise. -/
def GetAnswerHandler (s : Store) (path : String) (fault : Bool) :
    Store × Response :=
  let idStr := trimPfx path "/answers/"
  match goAtoi idStr with
  | none => (s, ⟨400, .msg "bad id"⟩)
  | some id =>
    match GetAnswer s id fault with
    | .error _ => (s, ⟨404, .msg "not found"⟩)
    | .ok a => (s, ⟨200, .jsonAnswer a⟩)

/-- `DeleteAnswerHandler`: parse the id (400 on failure), 404 on any
repository error, 204 on success. -/
def DeleteAnswerHandler (s : Store) (path : String) (fault : Bool) :
    Store × Response :=
  let idStr := trimPfx path "/answers/"
  match goAtoi idStr with
  | none => (s, ⟨400, .msg "bad id"⟩)
  | some id =>
    match DeleteAnswer s id fault with
    | (.error _, s') => (s', ⟨404, .msg "not found"⟩)
    | (.ok _, s') => (s', ⟨204, .empty⟩)

/- ### Router (the two functions registered on the ServeMux) -/

/-- The closure registered on `/questions/`: the POST `.../answers`
suffix check comes first, then the collection branches, then the
single-question branches, and `http.NotFound` as the default. -/
def questionsMux (s : Store) (method path : String) (body : ReqBody)
    (now : Nat) (f1 f2 : Bool) : Store × Response :=
  if method = "POST" ∧ goHasSuffix path "/answers" then
    CreateAnswerHandler s path body now f1 f2
  else if method = "GET" ∧ (path = "/questions/" ∨ path = "/questions") then
    GetAllQuestionsHandler s f1
  else if method = "POST" ∧ (path = "/questions/" ∨ path = "/questions") then
    CreateQuestionHandler s body now f1
  else if method = "GET" then GetQuestionHandler s path f1
  else if method = "DELETE" then DeleteQuestionHandler s path f1
  else (s, ⟨404, .msg "404 page not found"⟩)

/-- The closure registered on `/answers/`: GET and DELETE dispatch, any
other method is 405 method-not-allowed. -/
def answersMux (s : Store) (method path : String) (fault : Bool) :
    Store × Response :=
  if method = "GET" then GetAnswerHandler s path fault
  else if method = "DELETE" then DeleteAnswerHandler s path fault
  else (s, ⟨405, .msg "method not allowed"⟩)

/- ### Reachable store states -/

/-- One API operation, with its request data and injected faults. -/
inductive Op where
  | createQuestion (body : ReqBody) (now : Nat) (fault : Bool)
  | listQuestions (fault : Bool)
  | getQuestion (path : String) (fault : Bool)
  | deleteQuestion (path : String) (fault : Bool)
  | createAnswer (path : String) (body : ReqBody) (now : Nat) (f1 f2 : Bool)
  | getAnswer (path : String) (fault : Bool)
  | deleteAnswer (path : String) (fault : Bool)

/-- The store after one API operation. -/
def applyOp (s : Store) : Op → Store
  | .createQuestion body now fault => (CreateQuestionHandler s body now fault).1
  | .listQuestions fault => (GetAllQuestionsHandler s fault).1
  | .getQuestion path fault => (GetQuestionHandler s path fault).1
  | .deleteQuestion path fault => (DeleteQuestionHandler s path fault).1
  | .createAnswer path body now f1 f2 =>
      (CreateAnswerHandler s path body now f1 f2).1
  | .getAnswer path fault => (GetAnswerHandler s path fault).1
  | .deleteAnswer path fault => (DeleteAnswerHandler s path fault).1

/-- A store state reachable from the empty store by API operations. -/
def Reachable (s : Store) : Prop :=
  ∃ ops : List Op, s = ops.foldl applyOp emptyStore

/-- Referential integrity: every answer's `QuestionID` is the id of some
question currently in the store. -/
def RefIntegrity (s : Store) : Prop :=
  ∀ a ∈ s.answers, ∃ q ∈ s.questions, q.ID = a.QuestionID

/-- Distinct answer primary keys. -/
def UniqueAnswerIDs (s : Store) : Prop :=
  ∀ a ∈ s.answers, ∀ b ∈ s.answers, a.ID = b.ID → a = b

/-- An operation that is a successful question creation: well-formed JSON
body and no storage fault. -/
def isOkCreate : Op → Prop
  | .createQuestion (.obj _) _ false => True
  | _ => False

/-- A fixture store: one question (id 1) and one answer (id 1) under it. -/
def q1 : Question := ⟨1, "Why?", 5, []⟩

/-- The fixture answer owned by `q1`. -/
def a1 : Answer := ⟨1, 1, "u1", "Because", 6⟩

/-- The fixture store holding `q1` and `a1`. -/
def storeOne : Store := ⟨[q1], [a1], 2, 2⟩

/- ### Theorems -/

/-- **C6** For every POST request whose path ends with `/answers` under
`/questions/`, the router dispatches to answer creation before evaluating
any question-id branch: the registered closure is literally equal to
`CreateAnswerHandler` on such requests, so they are never treated as an
operation on a numeric question id. -/
theorem C6_answers_suffix_dispatch (s : Store) (method path : String)
    (body : ReqBody) (now : Nat) (f1 f2 : Bool)
    (hm : method = "POST") (hs : goHasSuffix path "/answers" = true) :
    questionsMux s method path body now f1 f2 =
      CreateAnswerHandler s path body now f1 f2 := by
  simp [questionsMux, hm, hs]

/-- Witness for C6 at a concrete request. -/
theorem C6_answers_suffix_dispatch_witness :
    questionsMux storeOne "POST" "/questions/1/answers"
        (.obj ⟨none, none, some "Because", some "u1"⟩) 7 false false =
      CreateAnswerHandler storeOne "/questions/1/answers"
        (.obj ⟨none, none, some "Because", some "u1"⟩) 7 false false :=
  C6_answers_suffix_dispatch storeOne "POST" "/questions/1/answers"
    (.obj ⟨none, none, some "Because", some "u1"⟩) 7 false false rfl (by decide)

/-- **C10** Unsupported methods behave differently on the two route
prefixes: under `/answers/` any method other than GET or DELETE yields
405, while under `/questions/` a request matching no branch (any method
other than GET, DELETE and POST, e.g. PUT) falls to `http.NotFound` and
yields 404. -/
theorem C10_method_mismatch (s : Store) (pq pa : String) (body : ReqBody)
    (now : Nat) (f1 f2 : Bool) :
    (∀ m : String, m ≠ "GET" → m ≠ "DELETE" →
      (answersMux s m pa f1).2.status = 405) ∧
    (∀ m : String, m ≠ "GET" → m ≠ "DELETE" → m ≠ "POST" →
      (questionsMux s m pq body now f1 f2).2.status = 404) := by
  constructor
  · intro m hg hd
    simp [answersMux, hg, hd]
  · intro m hg hd hp
    simp [questionsMux, hg, hd, hp]

/-- Witness for C10: a PUT on each prefix. -/
theorem C10_method_mismatch_witness :
    (answersMux storeOne "PUT" "/answers/1" false).2.status = 405 ∧
    (questionsMux storeOne "PUT" "/questions/1" .malformed 0
        false false).2.status = 404 :=
  ⟨(C10_method_mismatch storeOne "/questions/1" "/answers/1" .malformed 0
      false false).1 "PUT" (by decide) (by decide),
   (C10_method_mismatch storeOne "/questions/1" "/answers/1" .malformed 0
      false false).2 "PUT" (by decide) (by decide) (by decide)⟩

/-- **C8** A GET or DELETE on `/questions/{x}` or `/answers/{x}` whose
path remainder does not parse as a decimal integer answers 400 with the
store unchanged, regardless of the storage layer. -/
theorem C8_nonnumeric_id (s : Store) (pq pa : String) (fault : Bool)
    (hq : goAtoi (trimPfx pq "/questions/") = none)
    (ha : goAtoi (trimPfx pa "/answers/") = none) :
    GetQuestionHandler s pq fault = (s, ⟨400, .msg "bad id"⟩) ∧
    DeleteQuestionHandler s pq fault = (s, ⟨400, .msg "bad id"⟩) ∧
    GetAnswerHandler s pa fault = (s, ⟨400, .msg "bad id"⟩) ∧
    DeleteAnswerHandler s pa fault = (s, ⟨400, .msg "bad id"⟩) := by
  refine ⟨?_, ?_, ?_, ?_⟩ <;>
    simp [GetQuestionHandler, DeleteQuestionHandler, GetAnswerHandler,
      DeleteAnswerHandler, hq, ha]

/-- Witness for C8 at concrete non-numeric paths. -/
theorem C8_nonnumeric_id_witness :
    GetQuestionHandler storeOne "/questions/abc" false =
      (storeOne, ⟨400, .msg "bad id"⟩) ∧
    DeleteQuestionHandler storeOne "/questions/abc" false =
      (storeOne, ⟨400, .msg "bad id"⟩) ∧
    GetAnswerHandler storeOne "/answers/xyz" false =
      (storeOne, ⟨400, .msg "bad id"⟩) ∧
    DeleteAnswerHandler storeOne "/answers/xyz" false =
      (storeOne, ⟨400, .msg "bad id"⟩) :=
  C8_nonnumeric_id storeOne "/questions/abc" "/answers/xyz" false
    (by decide) (by decide)

/-- No row matches: `DB.First` on the `questions` table comes back empty
when no stored question carries the id. -/
theorem firstQuestion_eq_none {s : Store} {i : Int}
    (h : ∀ q ∈ s.questions, q.ID ≠ i) : firstQuestion s i = none := by
  apply List.find?_eq_none.mpr
  intro q hqmem
  simpa using h q hqmem

/-- No row matches: `DB.First` on the `answers` table comes back empty
when no stored answer carries the id. -/
theorem firstAnswer_eq_none {s : Store} {j : Int}
    (h : ∀ b ∈ s.answers, b.ID ≠ j) : firstAnswer s j = none := by
  apply List.find?_eq_none.mpr
  intro b hbmem
  simpa using h b hbmem

/-- **C4** Every GET or DELETE of a numeric id with no matching row
answers 404, and the delete repository functions signal not-found exactly
when zero rows were affected. -/
theorem C4_missing_id_404 (s : Store) (pq pa : String) (i j : Int)
    (hq : ∀ q ∈ s.questions, q.ID ≠ i)
    (ha : ∀ b ∈ s.answers, b.ID ≠ j)
    (hpq : goAtoi (trimPfx pq "/questions/") = some i)
    (hpa : goAtoi (trimPfx pa "/answers/") = some j) :
    (GetQuestionHandler s pq false).2.status = 404 ∧
    (DeleteQuestionHandler s pq false).2.status = 404 ∧
    (GetAnswerHandler s pa false).2.status = 404 ∧
    (DeleteAnswerHandler s pa false).2.status = 404 ∧
    (∀ k : Int, ((DeleteQuestion s k false).1 = .error .recordNotFound ↔
      s.questions.countP (fun q => q.ID == k) = 0)) ∧
    (∀ k : Int, ((DeleteAnswer s k false).1 = .error .recordNotFound ↔
      s.answers.countP (fun b => b.ID == k) = 0)) := by
  have hnq : firstQuestion s i = none := firstQuestion_eq_none hq
  have hna : firstAnswer s j = none := firstAnswer_eq_none ha
  have hcq : s.questions.countP (fun q => q.ID == i) = 0 := by
    apply List.countP_eq_zero.mpr
    intro q hqmem
    simpa using hq q hqmem
  have hca : s.answers.countP (fun b => b.ID == j) = 0 := by
    apply List.countP_eq_zero.mpr
    intro b hbmem
    simpa using ha b hbmem
  refine ⟨?_, ?_, ?_, ?_, ?_, ?_⟩
  · simp [GetQuestionHandler, hpq, GetQuestionWithAnswers, hnq]
  · simp [DeleteQuestionHandler, hpq, DeleteQuestion, hcq]
  · simp [GetAnswerHandler, hpa, GetAnswer, hna]
  · simp [DeleteAnswerHandler, hpa, DeleteAnswer, hca]
  · intro k
    by_cases hk : s.questions.countP (fun q => q.ID == k) = 0 <;>
      simp [DeleteQuestion, hk]
  · intro k
    by_cases hk : s.answers.countP (fun b => b.ID == k) = 0 <;>
      simp [DeleteAnswer, hk]

/-- Witness for C4: id 9 matches nothing in the fixture store. -/
theorem C4_missing_id_404_witness :
    (GetQuestionHandler storeOne "/questions/9" false).2.status = 404 ∧
    (DeleteQuestionHandler storeOne "/questions/9" false).2.status = 404 ∧
    (GetAnswerHandler storeOne "/answers/9" false).2.status = 404 ∧
    (DeleteAnswerHandler storeOne "/answers/9" false).2.status = 404 ∧
    (∀ k : Int, ((DeleteQuestion storeOne k false).1 = .error .recordNotFound ↔
      storeOne.questions.countP (fun q => q.ID == k) = 0)) ∧
    (∀ k : Int, ((DeleteAnswer storeOne k false).1 = .error .recordNotFound ↔
      storeOne.answers.countP (fun b => b.ID == k) = 0)) :=
  C4_missing_id_404 storeOne "/questions/9" "/answers/9" 9 9
    (by decide) (by decide) (by decide) (by decide)

/-- **C3** A POST `/questions/{id}/answers` whose question id matches no
stored question leaves the store unchanged and answers 400: the existence
read precedes the insert, so nothing is persisted. -/
theorem C3_create_answer_missing_question (s : Store) (p : String)
    (body : ReqBody) (now : Nat) (i : Int)
    (hlen : 2 ≤ (goSplitSlash (trimPfx p "/questions/")).length)
    (hseg : (goSplitSlash (trimPfx p "/questions/")).getD 1 "" = "answers")
    (hid : goAtoi ((goSplitSlash (trimPfx p "/questions/")).getD 0 "") = some i)
    (hq : ∀ q ∈ s.questions, q.ID ≠ i) :
    (CreateAnswerHandler s p body now false false).1 = s ∧
    (CreateAnswerHandler s p body now false false).2.status = 400 := by
  have hnf : firstQuestion s i = none := firstQuestion_eq_none hq
  have h2 : ¬ ((goSplitSlash (trimPfx p "/questions/")).length < 2) := by
    omega
  have hseg' : (goSplitSlash (trimPfx p "/questions/"))[1]?.getD "" =
      "answers" := by simpa using hseg
  have hid' : goAtoi ((goSplitSlash (trimPfx p "/questions/"))[0]?.getD "") =
      some i := by simpa using hid
  refine ⟨?_, ?_⟩ <;>
    cases body <;>
      simp [CreateAnswerHandler, h2, hseg', hid', decodeCreateAnswerReq,
        CreateAnswer, hnf]

/-- Witness for C3: question 9 does not exist in the fixture store. -/
theorem C3_create_answer_missing_question_witness :
    (CreateAnswerHandler storeOne "/questions/9/answers"
        (.obj ⟨none, none, some "Because", some "u1"⟩) 7 false false).1 =
      storeOne ∧
    (CreateAnswerHandler storeOne "/questions/9/answers"
        (.obj ⟨none, none, some "Because", some "u1"⟩) 7 false false).2.status
      = 400 :=
  C3_create_answer_missing_question storeOne "/questions/9/answers"
    (.obj ⟨none, none, some "Because", some "u1"⟩) 7 9
    (by decide) (by decide) (by decide) (by decide)

/-- **C5, counterexample** The claim says every unexpected storage failure
yields HTTP 500, but `GetQuestionHandler` maps every repository error —
including a non-not-found storage failure (`fault = true`) — to 404. -/
theorem C5_counterexample :
    (GetQuestionHandler storeOne "/questions/1" true).2.status = 404 ∧
    (GetQuestionHandler storeOne "/questions/1" true).2.status ≠ 500 := by
  decide

/-- **C5, amended** Only the create-question and list-questions handlers
answer 500 on an unexpected storage failure; the single-question and
answer get/delete handlers answer 404 on any storage failure, and answer
creation answers 400. -/
theorem C5_storage_failure_amended (s : Store) (f : JsonFields)
    (pq pa pc : String) (now : Nat) (i : Int) (f2 : Bool)
    (hpq : goAtoi (trimPfx pq "/questions/") = some i)
    (hpa : goAtoi (trimPfx pa "/answers/") = some i)
    (hlen : 2 ≤ (goSplitSlash (trimPfx pc "/questions/")).length)
    (hseg : (goSplitSlash (trimPfx pc "/questions/")).getD 1 "" = "answers")
    (hid : goAtoi ((goSplitSlash (trimPfx pc "/questions/")).getD 0 "") =
      some i) :
    (CreateQuestionHandler s (.obj f) now true).2.status = 500 ∧
    (GetAllQuestionsHandler s true).2.status = 500 ∧
    (GetQuestionHandler s pq true).2.status = 404 ∧
    (DeleteQuestionHandler s pq true).2.status = 404 ∧
    (GetAnswerHandler s pa true).2.status = 404 ∧
    (DeleteAnswerHandler s pa true).2.status = 404 ∧
    (CreateAnswerHandler s pc (.obj f) now true f2).2.status = 400 := by
  have h2 : ¬ ((goSplitSlash (trimPfx pc "/questions/")).length < 2) := by
    omega
  have hseg' : (goSplitSlash (trimPfx pc "/questions/"))[1]?.getD "" =
      "answers" := by simpa using hseg
  have hid' : goAtoi ((goSplitSlash (trimPfx pc "/questions/"))[0]?.getD "") =
      some i := by simpa using hid
  refine ⟨?_, ?_, ?_, ?_, ?_, ?_, ?_⟩
  · simp [CreateQuestionHandler, decodeCreateQuestionReq, CreateQuestion]
  · simp [GetAllQuestionsHandler, GetAllQuestions]
  · simp [GetQuestionHandler, hpq, GetQuestionWithAnswers]
  · simp [DeleteQuestionHandler, hpq, DeleteQuestion]
  · simp [GetAnswerHandler, hpa, GetAnswer]
  · simp [DeleteAnswerHandler, hpa, DeleteAnswer]
  · simp [CreateAnswerHandler, h2, hseg', hid', decodeCreateAnswerReq,
      CreateAnswer]

/-- Witness for the amended C5 at concrete requests on the fixture. -/
theorem C5_storage_failure_amended_witness :
    (CreateQuestionHandler storeOne (.obj ⟨none, none, some "Why?", none⟩) 7
        true).2.status = 500 ∧
    (GetAllQuestionsHandler storeOne true).2.status = 500 ∧
    (GetQuestionHandler storeOne "/questions/1" true).2.status = 404 ∧
    (DeleteQuestionHandler storeOne "/questions/1" true).2.status = 404 ∧
    (GetAnswerHandler storeOne "/answers/1" true).2.status = 404 ∧
    (DeleteAnswerHandler storeOne "/answers/1" true).2.status = 404 ∧
    (CreateAnswerHandler storeOne "/questions/1/answers"
        (.obj ⟨none, none, some "Why?", none⟩) 7 true false).2.status = 400 :=
  C5_storage_failure_amended storeOne ⟨none, none, some "Why?", none⟩
    "/questions/1" "/answers/1" "/questions/1/answers" 7 1 false
    (by decide) (by decide) (by decide) (by decide) (by decide)

/-- **C1** Deleting a stored question over HTTP answers 204, leaves no
answer referencing it, and a subsequent GET of any answer that was under
it answers 404. -/
theorem C1_cascade_delete (s : Store) (q : Question) (a : Answer)
    (pq pa : String)
    (hq : q ∈ s.questions)
    (huniq : UniqueAnswerIDs s)
    (ha : a ∈ s.answers) (haq : a.QuestionID = q.ID)
    (hppq : goAtoi (trimPfx pq "/questions/") = some q.ID)
    (hppa : goAtoi (trimPfx pa "/answers/") = some a.ID) :
    (DeleteQuestionHandler s pq false).2.status = 204 ∧
    (∀ b ∈ (DeleteQuestionHandler s pq false).1.answers,
      b.QuestionID ≠ q.ID) ∧
    (GetAnswerHandler (DeleteQuestionHandler s pq false).1 pa
      false).2.status = 404 := by
  have hcnt : s.questions.countP (fun x => x.ID == q.ID) ≠ 0 := by
    intro h0
    exact absurd (by simp : (q.ID == q.ID) = true)
      (by simpa using List.countP_eq_zero.mp h0 q hq)
  have hD : DeleteQuestionHandler s pq false =
      (⟨s.questions.filter (fun x => x.ID != q.ID),
        s.answers.filter (fun b => b.QuestionID != q.ID),
        s.nextQID, s.nextAID⟩,
        ⟨204, .empty⟩) := by
    simp [DeleteQuestionHandler, hppq, DeleteQuestion, hcnt]
  have hfilter : ∀ b ∈ s.answers.filter (fun b => b.QuestionID != q.ID),
      b.ID ≠ a.ID := by
    intro b hb hba
    have hb' := List.mem_filter.mp hb
    have hbq : b.QuestionID ≠ q.ID := by simpa using hb'.2
    have hbeq : b = a := huniq b hb'.1 a ha hba
    cases hbeq
    exact hbq haq
  refine ⟨?_, ?_, ?_⟩
  · rw [hD]
  · rw [hD]
    intro b hb
    simpa using (List.mem_filter.mp hb).2
  · rw [hD]
    have hfa : firstAnswer
        (⟨s.questions.filter (fun x => x.ID != q.ID),
          s.answers.filter (fun b => b.QuestionID != q.ID),
          s.nextQID, s.nextAID⟩ : Store) a.ID = none :=
      firstAnswer_eq_none hfilter
    simp [GetAnswerHandler, hppa, GetAnswer, hfa]

/-- Witness for C1: delete question 1 of the fixture, then fetch its
answer 1. -/
theorem C1_cascade_delete_witness :
    (DeleteQuestionHandler storeOne "/questions/1" false).2.status = 204 ∧
    (∀ b ∈ (DeleteQuestionHandler storeOne "/questions/1" false).1.answers,
      b.QuestionID ≠ q1.ID) ∧
    (GetAnswerHandler (DeleteQuestionHandler storeOne "/questions/1" false).1
      "/answers/1" false).2.status = 404 :=
  C1_cascade_delete storeOne q1 a1 "/questions/1" "/answers/1"
    (by decide) (by unfold UniqueAnswerIDs; decide) (by decide) (by decide)
    (by decide) (by decide)

/-- Adding a question row preserves referential integrity. -/
theorem refIntegrity_addQuestion (s : Store) (q : Question) (nq na : Int)
    (h : RefIntegrity s) :
    RefIntegrity ⟨s.questions ++ [q], s.answers, nq, na⟩ := by
  intro a ha
  obtain ⟨qq, hqm, he⟩ := h a ha
  exact ⟨qq, List.mem_append.mpr (Or.inl hqm), he⟩

/-- Deleting a question together with its answers (the cascade) preserves
referential integrity. -/
theorem refIntegrity_deleteQuestion (s : Store) (i : Int)
    (h : RefIntegrity s) :
    RefIntegrity ⟨s.questions.filter (fun q => q.ID != i),
      s.answers.filter (fun b => b.QuestionID != i), s.nextQID,
      s.nextAID⟩ := by
  intro a ha
  have h2 := List.mem_filter.mp ha
  obtain ⟨qq, hqm, he⟩ := h a h2.1
  refine ⟨qq, List.mem_filter.mpr ⟨hqm, ?_⟩, he⟩
  have hne : a.QuestionID ≠ i := by simpa using h2.2
  simp [he, hne]

/-- Adding an answer whose question exists preserves referential
integrity. -/
theorem refIntegrity_addAnswer (s : Store) (a : Answer) (na : Int)
    (hex : ∃ q ∈ s.questions, q.ID = a.QuestionID) (h : RefIntegrity s) :
    RefIntegrity ⟨s.questions, s.answers ++ [a], s.nextQID, na⟩ := by
  intro b hb
  rcases List.mem_append.mp hb with hb | hb
  · exact h b hb
  · have hba : b = a := by simpa using hb
    cases hba
    exact hex

/-- Removing answers preserves referential integrity. -/
theorem refIntegrity_filterAnswers (s : Store) (p : Answer → Bool)
    (h : RefIntegrity s) :
    RefIntegrity ⟨s.questions, s.answers.filter p, s.nextQID, s.nextAID⟩ := by
  intro b hb
  exact h b (List.mem_filter.mp hb).1

/-- Every single API operation preserves referential integrity. -/
theorem refIntegrity_applyOp (s : Store) (op : Op) (h : RefIntegrity s) :
    RefIntegrity (applyOp s op) := by
  cases op with
  | createQuestion body now fault =>
    cases body with
    | malformed =>
      simpa [applyOp, CreateQuestionHandler, decodeCreateQuestionReq] using h
    | obj f =>
      cases fault with
      | true =>
        simpa [applyOp, CreateQuestionHandler, decodeCreateQuestionReq,
          CreateQuestion] using h
      | false =>
        have := refIntegrity_addQuestion s
          ⟨s.nextQID, f.text.getD "", now, []⟩ (s.nextQID + 1) s.nextAID h
        simpa [applyOp, CreateQuestionHandler, decodeCreateQuestionReq,
          CreateQuestion] using this
  | listQuestions fault =>
    cases fault <;>
      simpa [applyOp, GetAllQuestionsHandler, GetAllQuestions] using h
  | getQuestion path fault =>
    cases hgo : goAtoi (trimPfx path "/questions/") with
    | none => simpa [applyOp, GetQuestionHandler, hgo] using h
    | some i =>
      cases hres : GetQuestionWithAnswers s i fault with
      | error e => simpa [applyOp, GetQuestionHandler, hgo, hres] using h
      | ok v => simpa [applyOp, GetQuestionHandler, hgo, hres] using h
  | deleteQuestion path fault =>
    cases fault with
    | true =>
      cases hgo : goAtoi (trimPfx path "/questions/") <;>
        simpa [applyOp, DeleteQuestionHandler, hgo, DeleteQuestion] using h
    | false =>
      cases hgo : goAtoi (trimPfx path "/questions/") with
      | none => simpa [applyOp, DeleteQuestionHandler, hgo] using h
      | some i =>
        by_cases hc : s.questions.countP (fun q => q.ID == i) = 0
        · simpa [applyOp, DeleteQuestionHandler, hgo, DeleteQuestion, hc]
            using h
        · have := refIntegrity_deleteQuestion s i h
          simpa [applyOp, DeleteQuestionHandler, hgo, DeleteQuestion, hc]
            using this
  | createAnswer path body now f1 f2 =>
    by_cases h2 : (goSplitSlash (trimPfx path "/questions/")).length < 2
    · simpa [applyOp, CreateAnswerHandler, h2] using h
    · by_cases hsg :
        (goSplitSlash (trimPfx path "/questions/")).getD 1 "" = "answers"
      case neg =>
        have hsg' :
            ¬ (goSplitSlash (trimPfx path "/questions/"))[1]?.getD "" =
              "answers" := by simpa using hsg
        simpa [applyOp, CreateAnswerHandler, h2, hsg'] using h
      case pos =>
        have hsg' :
            (goSplitSlash (trimPfx path "/questions/"))[1]?.getD "" =
              "answers" := by simpa using hsg
        cases hgo :
            goAtoi ((goSplitSlash (trimPfx path "/questions/"))[0]?.getD "")
          with
        | none =>
          simpa [applyOp, CreateAnswerHandler, h2, hsg', hgo] using h
        | some i =>
          cases body with
          | malformed =>
            simpa [applyOp, CreateAnswerHandler, h2, hsg', hgo,
              decodeCreateAnswerReq] using h
          | obj f =>
            cases f1 with
            | true =>
              simpa [applyOp, CreateAnswerHandler, h2, hsg', hgo,
                decodeCreateAnswerReq, CreateAnswer] using h
            | false =>
              cases hfq : firstQuestion s i with
              | none =>
                simpa [applyOp, CreateAnswerHandler, h2, hsg', hgo,
                  decodeCreateAnswerReq, CreateAnswer, hfq] using h
              | some qq =>
                cases f2 with
                | true =>
                  simpa [applyOp, CreateAnswerHandler, h2, hsg', hgo,
                    decodeCreateAnswerReq, CreateAnswer, hfq] using h
                | false =>
                  have hex : ∃ q ∈ s.questions, q.ID = i := by
                    refine ⟨qq, List.mem_of_find?_eq_some hfq, ?_⟩
                    have := List.find?_some hfq
                    simpa using this
                  have := refIntegrity_addAnswer s
                    ⟨s.nextAID, i, f.user_id.getD "", f.text.getD "", now⟩
                    (s.nextAID + 1) hex h
                  simpa [applyOp, CreateAnswerHandler, h2, hsg', hgo,
                    decodeCreateAnswerReq, CreateAnswer, hfq] using this
  | getAnswer path fault =>
    cases hgo : goAtoi (trimPfx path "/answers/") with
    | none => simpa [applyOp, GetAnswerHandler, hgo] using h
    | some i =>
      cases hres : GetAnswer s i fault with
      | error e => simpa [applyOp, GetAnswerHandler, hgo, hres] using h
      | ok v => simpa [applyOp, GetAnswerHandler, hgo, hres] using h
  | deleteAnswer path fault =>
    cases fault with
    | true =>
      cases hgo : goAtoi (trimPfx path "/answers/") <;>
        simpa [applyOp, DeleteAnswerHandler, hgo, DeleteAnswer] using h
    | false =>
      cases hgo : goAtoi (trimPfx path "/answers/") with
      | none => simpa [applyOp, DeleteAnswerHandler, hgo] using h
      | some i =>
        by_cases hc : s.answers.countP (fun b => b.ID == i) = 0
        · simpa [applyOp, DeleteAnswerHandler, hgo, DeleteAnswer, hc] using h
        · have := refIntegrity_filterAnswers s (fun b => b.ID != i) h
          simpa [applyOp, DeleteAnswerHandler, hgo, DeleteAnswer, hc]
            using this

/-- **C2** In every store state reachable from the empty store by API
operations, every answer's `QuestionID` is the id of a question present
in the store; and the existence check is performed by `CreateAnswer` at
write time: with no matching question the insert is never reached and the
store is returned unchanged with a not-found error. -/
theorem C2_referential_integrity (s : Store) (h : Reachable s) :
    RefIntegrity s ∧
    (∀ (t : Store) (a : Answer) (now : Nat) (f2 : Bool),
      (∀ q ∈ t.questions, q.ID ≠ a.QuestionID) →
      CreateAnswer t a now false f2 = (.error .recordNotFound, t)) := by
  constructor
  · obtain ⟨ops, rfl⟩ := h
    suffices H : ∀ (l : List Op) (t : Store), RefIntegrity t →
        RefIntegrity (l.foldl applyOp t) from
      H ops emptyStore (by intro a ha; simp [emptyStore] at ha)
    intro l
    induction l with
    | nil => intro t ht; simpa using ht
    | cons op l ih =>
      intro t ht
      rw [List.foldl_cons]
      exact ih (applyOp t op) (refIntegrity_applyOp t op ht)
  · intro t a now f2 hnone
    have hfq : firstQuestion t a.QuestionID = none := firstQuestion_eq_none hnone
    simp [CreateAnswer, hfq]

/-- Witness for C2: the empty store is reachable and satisfies the
invariant, and a concrete orphan insert is rejected unchanged. -/
theorem C2_referential_integrity_witness :
    RefIntegrity emptyStore ∧
    CreateAnswer storeOne ⟨0, 9, "u1", "Because", 0⟩ 7 false false =
      (.error .recordNotFound, storeOne) :=
  ⟨(C2_referential_integrity emptyStore ⟨[], rfl⟩).1,
   (C2_referential_integrity emptyStore ⟨[], rfl⟩).2 storeOne
     ⟨0, 9, "u1", "Because", 0⟩ 7 false (by decide)⟩

/-- A run of successful question creations grows the question table by
exactly one row per operation. -/
theorem okCreates_length : ∀ (ops : List Op) (t : Store),
    (∀ op ∈ ops, isOkCreate op) →
    (ops.foldl applyOp t).questions.length = t.questions.length + ops.length := by
  intro ops
  induction ops with
  | nil => intro t _; simp
  | cons op l ih =>
    intro t hops
    have hop : isOkCreate op := hops op (by simp)
    have hl : ∀ o ∈ l, isOkCreate o := fun o ho => hops o (by simp [ho])
    rw [List.foldl_cons]
    cases op with
    | createQuestion body now fault =>
      cases body with
      | malformed => exact absurd hop (by simp [isOkCreate])
      | obj f =>
        cases fault with
        | true => exact absurd hop (by simp [isOkCreate])
        | false =>
          rw [ih (applyOp t (.createQuestion (.obj f) now false)) hl]
          have happ :
              (applyOp t (.createQuestion (.obj f) now false)).questions.length
                = t.questions.length + 1 := by
            simp [applyOp, CreateQuestionHandler, decodeCreateQuestionReq,
              CreateQuestion]
          rw [happ]
          simp
          omega
    | listQuestions fault => exact absurd hop (by simp [isOkCreate])
    | getQuestion path fault => exact absurd hop (by simp [isOkCreate])
    | deleteQuestion path fault => exact absurd hop (by simp [isOkCreate])
    | createAnswer path body now f1 f2 => exact absurd hop (by simp [isOkCreate])
    | getAnswer path fault => exact absurd hop (by simp [isOkCreate])
    | deleteAnswer path fault => exact absurd hop (by simp [isOkCreate])

/-- **C7** A GET on the questions collection answers 200 with exactly the
stored questions (same count, each with an empty answers collection), and
after N successful creates from the empty store the table holds exactly N
rows. -/
theorem C7_list_questions (s : Store) (path : String) (body : ReqBody)
    (now : Nat) (f2 : Bool)
    (hp : path = "/questions/" ∨ path = "/questions") :
    questionsMux s "GET" path body now false f2 =
      (s, ⟨200, .jsonQuestions
        (s.questions.map (fun q => { q with Answers := [] }))⟩) ∧
    (s.questions.map (fun q => { q with Answers := [] })).length =
      s.questions.length ∧
    (∀ q ∈ s.questions.map (fun q => { q with Answers := [] }),
      q.Answers = ([] : List Answer)) ∧
    (∀ ops : List Op, (∀ op ∈ ops, isOkCreate op) →
      (ops.foldl applyOp emptyStore).questions.length = ops.length) := by
  have h1 : goHasSuffix "/questions/" "/answers" = false := by decide
  have h2 : goHasSuffix "/questions" "/answers" = false := by decide
  refine ⟨?_, ?_, ?_, ?_⟩
  · rcases hp with rfl | rfl <;>
      simp [questionsMux, h1, h2, GetAllQuestionsHandler, GetAllQuestions]
  · simp
  · intro q hq
    obtain ⟨x, _, rfl⟩ := List.mem_map.mp hq
    rfl
  · intro ops hops
    have := okCreates_length ops emptyStore hops
    simpa [emptyStore] using this

/-- Witness for C7 on the fixture store. -/
theorem C7_list_questions_witness :
    questionsMux storeOne "GET" "/questions/" .malformed 0 false false =
      (storeOne, ⟨200, .jsonQuestions
        (storeOne.questions.map (fun q => { q with Answers := [] }))⟩) ∧
    (storeOne.questions.map (fun q => { q with Answers := [] })).length =
      storeOne.questions.length ∧
    (∀ q ∈ storeOne.questions.map (fun q => { q with Answers := [] }),
      q.Answers = ([] : List Answer)) ∧
    (∀ ops : List Op, (∀ op ∈ ops, isOkCreate op) →
      (ops.foldl applyOp emptyStore).questions.length = ops.length) :=
  C7_list_questions storeOne "/questions/" .malformed 0 false (Or.inl rfl)

/-- `find?` over a table extended with one fresh row finds that row when
nothing before it matches. -/
theorem find?_concat_of_none {α : Type} {p : α → Bool} {l : List α} {x : α}
    (h : ∀ y ∈ l, p y = false) (hx : p x = true) :
    (l ++ [x]).find? p = some x := by
  induction l with
  | nil => rw [List.nil_append, List.find?_cons_of_pos _ hx]
  | cons a as ih =>
    have ha : p a = false := h a (by simp)
    have ih' := ih (fun y hy => h y (by simp [hy]))
    rw [List.cons_append, List.find?_cons_of_neg _ (by simp [ha]), ih']

/-- **C9** Stored ids and creation timestamps are generated by the server:
the decoded body carries only `text` (and `user_id` for answers), so a
request differing only in client-supplied `id`/`created_at` fields
produces the identical result, the created row carries the store's next
id and the server clock, and a create followed by a fetch of the returned
id yields the same text with a positive generated id and timestamp. -/
theorem C9_server_generated_ids (s : Store) (f f' : JsonFields) (now : Nat)
    (pq pca pa : String) (i : Int)
    (hqfresh : ∀ q ∈ s.questions, q.ID ≠ s.nextQID)
    (hafresh : ∀ b ∈ s.answers, b.ID ≠ s.nextAID)
    (hqpos : 0 < s.nextQID) (hapos : 0 < s.nextAID) (hnow : 0 < now)
    (hT : f'.text = f.text) (hU : f'.user_id = f.user_id)
    (hpq : goAtoi (trimPfx pq "/questions/") = some s.nextQID)
    (hlen : 2 ≤ (goSplitSlash (trimPfx pca "/questions/")).length)
    (hseg : (goSplitSlash (trimPfx pca "/questions/")).getD 1 "" = "answers")
    (hid : goAtoi ((goSplitSlash (trimPfx pca "/questions/")).getD 0 "") =
      some i)
    (hqex : ∃ q ∈ s.questions, q.ID = i)
    (hpa : goAtoi (trimPfx pa "/answers/") = some s.nextAID) :
    (CreateQuestionHandler s (.obj f) now false).2 =
      ⟨201, .jsonQuestion ⟨s.nextQID, f.text.getD "", now, []⟩⟩ ∧
    CreateQuestionHandler s (.obj f') now false =
      CreateQuestionHandler s (.obj f) now false ∧
    (∃ qq : Question,
      (GetQuestionHandler (CreateQuestionHandler s (.obj f) now false).1 pq
        false).2 = ⟨200, .jsonQuestion qq⟩ ∧
      qq.Text = f.text.getD "" ∧ qq.ID = s.nextQID ∧ 0 < qq.ID ∧
      qq.CreatedAt = now ∧ 0 < qq.CreatedAt) ∧
    (CreateAnswerHandler s pca (.obj f) now false false).2 =
      ⟨201, .jsonAnswer
        ⟨s.nextAID, i, f.user_id.getD "", f.text.getD "", now⟩⟩ ∧
    CreateAnswerHandler s pca (.obj f') now false false =
      CreateAnswerHandler s pca (.obj f) now false false ∧
    (∃ aa : Answer,
      (GetAnswerHandler
        (CreateAnswerHandler s pca (.obj f) now false false).1 pa
        false).2 = ⟨200, .jsonAnswer aa⟩ ∧
      aa.Text = f.text.getD "" ∧ aa.UserID = f.user_id.getD "" ∧
      aa.ID = s.nextAID ∧ 0 < aa.ID ∧ aa.CreatedAt = now ∧
      0 < aa.CreatedAt) := by
  have hseg' : (goSplitSlash (trimPfx pca "/questions/"))[1]?.getD "" =
      "answers" := by simpa using hseg
  have hid' : goAtoi ((goSplitSlash (trimPfx pca "/questions/"))[0]?.getD "")
      = some i := by simpa using hid
  have h2 : ¬ ((goSplitSlash (trimPfx pca "/questions/")).length < 2) := by
    omega
  have hsq : CreateQuestionHandler s (.obj f) now false =
      (⟨s.questions ++ [⟨s.nextQID, f.text.getD "", now, []⟩], s.answers,
        s.nextQID + 1, s.nextAID⟩,
       ⟨201, .jsonQuestion ⟨s.nextQID, f.text.getD "", now, []⟩⟩) := by
    simp [CreateQuestionHandler, decodeCreateQuestionReq, CreateQuestion]
  obtain ⟨qx, hqxm, hqxi⟩ := hqex
  have hfqs : ∃ qz, firstQuestion s i = some qz := by
    cases hfs : firstQuestion s i with
    | none =>
      have := List.find?_eq_none.mp hfs qx hqxm
      simp [hqxi] at this
    | some qz => exact ⟨qz, rfl⟩
  obtain ⟨qz, hqz⟩ := hfqs
  have hsa : CreateAnswerHandler s pca (.obj f) now false false =
      (⟨s.questions, s.answers ++
          [⟨s.nextAID, i, f.user_id.getD "", f.text.getD "", now⟩],
        s.nextQID, s.nextAID + 1⟩,
       ⟨201, .jsonAnswer
         ⟨s.nextAID, i, f.user_id.getD "", f.text.getD "", now⟩⟩) := by
    simp [CreateAnswerHandler, h2, hseg', hid', decodeCreateAnswerReq,
      CreateAnswer, hqz]
  refine ⟨?_, ?_, ?_, ?_, ?_, ?_⟩
  · rw [hsq]
  · simp [CreateQuestionHandler, decodeCreateQuestionReq, CreateQuestion,
      hT]
  · have hfind : firstQuestion
        (⟨s.questions ++ [⟨s.nextQID, f.text.getD "", now, []⟩], s.answers,
          s.nextQID + 1, s.nextAID⟩ : Store) s.nextQID =
        some ⟨s.nextQID, f.text.getD "", now, []⟩ := by
      have := find?_concat_of_none
        (p := fun q : Question => q.ID == s.nextQID) (l := s.questions)
        (x := ⟨s.nextQID, f.text.getD "", now, []⟩)
        (fun y hy => by simpa using hqfresh y hy) (by simp)
      simpa [firstQuestion] using this
    refine ⟨⟨s.nextQID, f.text.getD "", now,
      s.answers.filter (fun a => a.QuestionID == s.nextQID)⟩, ?_, rfl, rfl,
      hqpos, rfl, hnow⟩
    rw [hsq]
    simp [GetQuestionHandler, hpq, GetQuestionWithAnswers, hfind]
  · rw [hsa]
  · simp [CreateAnswerHandler, h2, hseg', hid', decodeCreateAnswerReq,
      CreateAnswer, hqz, hT, hU]
  · have hfind : firstAnswer
        (⟨s.questions, s.answers ++
            [⟨s.nextAID, i, f.user_id.getD "", f.text.getD "", now⟩],
          s.nextQID, s.nextAID + 1⟩ : Store) s.nextAID =
        some ⟨s.nextAID, i, f.user_id.getD "", f.text.getD "", now⟩ := by
      have := find?_concat_of_none
        (p := fun b : Answer => b.ID == s.nextAID) (l := s.answers)
        (x := ⟨s.nextAID, i, f.user_id.getD "", f.text.getD "", now⟩)
        (fun y hy => by simpa using hafresh y hy) (by simp)
      simpa [firstAnswer] using this
    refine ⟨⟨s.nextAID, i, f.user_id.getD "", f.text.getD "", now⟩, ?_, rfl,
      rfl, rfl, hapos, rfl, hnow⟩
    rw [hsa]
    simp [GetAnswerHandler, hpa, GetAnswer, hfind]

/-- Witness for C9: a create with client-supplied `id`/`created_at`
fields on the fixture store, followed by the fetches. -/
theorem C9_server_generated_ids_witness :
    (CreateQuestionHandler storeOne
        (.obj ⟨some 99, some 123, some "How?", some "u2"⟩) 7 false).2 =
      ⟨201, .jsonQuestion ⟨2, "How?", 7, []⟩⟩ ∧
    CreateQuestionHandler storeOne
        (.obj ⟨none, none, some "How?", some "u2"⟩) 7 false =
      CreateQuestionHandler storeOne
        (.obj ⟨some 99, some 123, some "How?", some "u2"⟩) 7 false ∧
    (∃ qq : Question,
      (GetQuestionHandler (CreateQuestionHandler storeOne
          (.obj ⟨some 99, some 123, some "How?", some "u2"⟩) 7 false).1
        "/questions/2" false).2 = ⟨200, .jsonQuestion qq⟩ ∧
      qq.Text = "How?" ∧ qq.ID = 2 ∧ 0 < qq.ID ∧
      qq.CreatedAt = 7 ∧ 0 < qq.CreatedAt) ∧
    (CreateAnswerHandler storeOne "/questions/1/answers"
        (.obj ⟨some 99, some 123, some "How?", some "u2"⟩) 7 false false).2 =
      ⟨201, .jsonAnswer ⟨2, 1, "u2", "How?", 7⟩⟩ ∧
    CreateAnswerHandler storeOne "/questions/1/answers"
        (.obj ⟨none, none, some "How?", some "u2"⟩) 7 false false =
      CreateAnswerHandler storeOne "/questions/1/answers"
        (.obj ⟨some 99, some 123, some "How?", some "u2"⟩) 7 false false ∧
    (∃ aa : Answer,
      (GetAnswerHandler (CreateAnswerHandler storeOne "/questions/1/answers"
          (.obj ⟨some 99, some 123, some "How?", some "u2"⟩) 7 false
          false).1 "/answers/2" false).2 = ⟨200, .jsonAnswer aa⟩ ∧
      aa.Text = "How?" ∧ aa.UserID = "u2" ∧ aa.ID = 2 ∧ 0 < aa.ID ∧
      aa.CreatedAt = 7 ∧ 0 < aa.CreatedAt) :=
  C9_server_generated_ids storeOne
    ⟨some 99, some 123, some "How?", some "u2"⟩
    ⟨none, none, some "How?", some "u2"⟩ 7
    "/questions/2" "/questions/1/answers" "/answers/2" 1
    (by decide) (by decide) (by decide) (by decide) (by decide) rfl rfl
    (by decide) (by decide) (by decide) (by decide) (by decide) (by decide)

end QAApi
